import Mathlib

/-!
Verification of the flight attribution-analysis service.

The development shallowly embeds the two Python source files of the
repository: `src/src/utils/config.py` (the `Config` class) and
`src/main.py` (the FastAPI endpoint handlers).  Python floats are
modelled as rationals (`ℚ`, with `float("inf")` as `⊤` in `WithTop ℚ`),
dicts as association lists or structures with one field per key,
exceptions as an explicit `Except` error channel, and each endpoint
handler as a pure function parametrised over its collaborators
(`DataProcessor`, `ModelTrainer`, `AttributionAnalyzer`), whose modules
are not part of the repository snapshot and are therefore modelled from
the specification where a claim needs their behaviour.
-/

/-! ## Embedding of `src/src/utils/config.py` -/

/-- Model of Python `str.lower()` for the ASCII strings used as model
names: lowercases every character of the string. -/
def py_lower (s : String) : String := String.mk (s.data.map Char.toLower)

/-- A value occurring in one of the hyperparameter dicts of `Config`:
ints, floats (as `ℚ`), strings, booleans, and homogeneous lists
thereof. -/
inductive ParamValue where
  | int (i : Int)
  | rat (q : ℚ)
  | str (s : String)
  | bool (b : Bool)
  | intList (l : List Int)
  | ratList (l : List ℚ)
deriving DecidableEq, Repr

/-- A Python dict with string keys, as an association list. -/
abbrev PyDict (α : Type) := List (String × α)

namespace Config

/-- `Config.MODEL` from `config.py`. -/
def MODEL : PyDict ParamValue :=
  [("random_state", .int 42), ("test_size", .rat (1/5)), ("cv_folds", .int 5), ("n_jobs", .int (-1))]

/-- `Config.XGBOOST_PARAMS` from `config.py`. -/
def XGBOOST_PARAMS : PyDict ParamValue :=
  [("n_estimators", .intList [100, 200, 300]),
   ("max_depth", .intList [3, 5, 7]),
   ("learning_rate", .ratList [1/100, 1/10, 1/5]),
   ("subsample", .ratList [4/5, 9/10, 1]),
   ("colsample_bytree", .ratList [4/5, 9/10, 1]),
   ("objective", .str "reg:squarederror"),
   ("eval_metric", .str "rmse")]

/-- `Config.LIGHTGBM_PARAMS` from `config.py`. -/
def LIGHTGBM_PARAMS : PyDict ParamValue :=
  [("n_estimators", .intList [100, 200, 300]),
   ("max_depth", .intList [3, 5, 7]),
   ("learning_rate", .ratList [1/100, 1/10, 1/5]),
   ("subsample", .ratList [4/5, 9/10, 1]),
   ("colsample_bytree", .ratList [4/5, 9/10, 1]),
   ("objective", .str "regression"),
   ("metric", .str "rmse"),
   ("verbose", .int (-1))]

/-- `Config.CATBOOST_PARAMS` from `config.py`. -/
def CATBOOST_PARAMS : PyDict ParamValue :=
  [("iterations", .intList [100, 200, 300]),
   ("depth", .intList [3, 5, 7]),
   ("learning_rate", .ratList [1/100, 1/10, 1/5]),
   ("subsample", .ratList [4/5, 9/10, 1]),
   ("loss_function", .str "RMSE"),
   ("verbose", .bool false)]

/-- The `Config.FEATURES` dict of `config.py`: target column, prediction
feature columns, and attribution-only feature columns. -/
structure FeaturesConfig where
  target_column : String
  feature_columns : List String
  attribution_features : List String
deriving DecidableEq, Repr

/-- `Config.FEATURES` from `config.py`, transcribed verbatim. -/
def FEATURES : FeaturesConfig where
  target_column := "cv"
  feature_columns :=
    ["task_type_encoded",
     "visibility", "wind_speed", "temperature", "weather_severity",
     "dep_delay", "arr_delay", "ready_delay", "start_delay", "end_delay",
     "status_encoded", "is_delayed", "is_cancelled", "is_early",
     "skill_level_encoded",
     "hour", "day_of_week", "is_holiday", "time_period_encoded"]
  attribution_features := ["cv_flight", "cv_task", "cv_airline", "cv_hour"]

/-- The `Config.CV_THRESHOLDS` dict: finite thresholds as `ℚ`,
`float("inf")` as `⊤`. -/
structure CVThresholdsConfig where
  very_low : ℚ
  low : ℚ
  medium : ℚ
  high : WithTop ℚ
deriving DecidableEq, Repr

/-- `Config.CV_THRESHOLDS` from `config.py`. -/
def CV_THRESHOLDS : CVThresholdsConfig where
  very_low := 1/10
  low := 2/10
  medium := 3/10
  high := ⊤

/-- `Config.get_model_params` from `config.py`: lowercases the model
name and looks it up in the params map, returning the empty dict when
absent (`params_map.get(model_name.lower(), {})`). -/
def get_model_params (model_name : String) : PyDict ParamValue :=
  if py_lower model_name = "xgboost" then XGBOOST_PARAMS
  else if py_lower model_name = "lightgbm" then LIGHTGBM_PARAMS
  else if py_lower model_name = "catboost" then CATBOOST_PARAMS
  else []

/-- `Config.get_cv_level` from `config.py`: the if/elif/else chain over
the CV thresholds, returning the Chinese level label of each bucket
("波动性很小" = very_low, "波动性较小" = low, "波动性中等" = medium,
"波动性较大" = high). -/
def get_cv_level (cv_value : ℚ) : String :=
  if cv_value < CV_THRESHOLDS.very_low then "波动性很小"
  else if cv_value < CV_THRESHOLDS.low then "波动性较小"
  else if cv_value < CV_THRESHOLDS.medium then "波动性中等"
  else "波动性较大"

end Config

/-! ## Embedding of `src/main.py` -/

/-- A Python exception as surfaced by an endpoint handler: either a
FastAPI `HTTPException` carrying a status code and a detail string, or
any other exception carrying its message (`str(e)`). -/
inductive PyExc where
  | http (status : Nat) (detail : String)
  | other (msg : String)
deriving DecidableEq, Repr

/-- `str(e)` for a Python exception: an `HTTPException` prints as its
status code, a colon and its detail (Starlette), any other exception
prints as its message. -/
def PyExc.py_str : PyExc → String
  | .http s d => toString s ++ ": " ++ d
  | .other m => m

/-- A row of a pandas dataframe, as a column-name/value association
list. -/
abbrev Row := List (String × ℚ)

/-- A pandas dataframe, abstracted to its list of rows (the endpoints
use only `.empty` and `len`). -/
structure DataFrame where
  rows : List Row
deriving DecidableEq, Repr

/-- `df.empty` in pandas: true iff the dataframe has no rows. -/
def DataFrame.empty (df : DataFrame) : Bool := df.rows.isEmpty

/-- The dict returned by `AttributionAnalyzer.analyze_with_plots`, as
consumed by `main.py`: the keys `feature_importance` (a feature → score
dict), `top_features` (a list of (feature, importance) pairs) and
`plots` (a plot-name → path dict). -/
structure AnalysisResult where
  feature_importance : PyDict ℚ
  top_features : List (String × ℚ)
  plots : PyDict String
deriving DecidableEq, Repr

/-- A value of the heterogeneous `data_summary` dict of an attribution
response: ints (ids and counts) or strings (timestamps). -/
inductive DSVal where
  | int (i : Int)
  | str (s : String)
deriving DecidableEq, Repr

/-- One element of the `feature_importance`/`top_features` lists of an
attribution response: the two-key dict with entries `'feature': k` and
`'importance': v` built by the endpoint comprehensions. -/
structure FeatImp where
  feature : String
  importance : ℚ
deriving DecidableEq, Repr

/-- The `AttributionResponse` pydantic model of `main.py`. -/
structure AttributionResponse where
  shap_values : PyDict ℚ
  feature_importance : List FeatImp
  top_features : List FeatImp
  data_summary : PyDict DSVal
  plots : PyDict String
  message : String
deriving DecidableEq, Repr

/-- The `ModelInfoResponse` pydantic model of `main.py`. -/
structure ModelInfoResponse where
  type : String
  training_date : String
  feature_count : Nat
  performance : PyDict ℚ
deriving DecidableEq, Repr

/-- The `try`/`except` wrapper of the two attribution endpoints:
`except HTTPException: raise` re-raises HTTP exceptions unchanged, and
`except Exception as e:` re-raises any other exception as
`HTTPException(500, px ++ str(e))` where `px` is the endpoint's f-string
message head ("归因分析失败: "). -/
def catch_http_reraise (px : String) (body : Except PyExc α) : Except PyExc α :=
  match body with
  | .ok a => .ok a
  | .error (.http s d) => .error (.http s d)
  | .error (.other m) => .error (.http 500 (px ++ m))

/-- The `try`/`except Exception` wrapper of the train and model-info
endpoints: any exception `e` (HTTPException included, as Python's
`except Exception` catches its subclasses) is re-raised as
`HTTPException(500, px ++ str(e))`. -/
def catch_all (px : String) (body : Except PyExc α) : Except PyExc α :=
  match body with
  | .ok a => .ok a
  | .error e => .error (.http 500 (px ++ e.py_str))

/-- The `try` body of `attribution_analysis_by_task` in `main.py`:
load the task's rows, 404 on an empty dataframe, run the analyzer, and
assemble the `AttributionResponse` exactly as the source does (both
`feature_importance` and `top_features` are comprehensions over
`result['top_features']`, and `shap_values` is
`result['feature_importance']`). -/
def attribution_task_body
    (load_data_by_task_id : Int → Except PyExc DataFrame)
    (analyze_with_plots : DataFrame → Except PyExc AnalysisResult)
    (task_id : Int) : Except PyExc AttributionResponse := do
  let task_data ← load_data_by_task_id task_id
  if task_data.empty then
    throw (PyExc.http 404 ("任务ID " ++ toString task_id ++ " 没有找到数据"))
  let result ← analyze_with_plots task_data
  pure
    { shap_values := result.feature_importance
      feature_importance :=
        result.top_features.map (fun kv => FeatImp.mk kv.1 kv.2)
      top_features :=
        result.top_features.map (fun kv => FeatImp.mk kv.1 kv.2)
      data_summary :=
        [("task_id", .int task_id),
         ("total_samples", .int task_data.rows.length),
         ("feature_count", .int result.feature_importance.length)]
      plots := result.plots
      message := "任务ID " ++ toString task_id ++ " 归因分析完成，SHAP图已生成" }

/-- `attribution_analysis_by_task` from `main.py`, parametrised over the
data processor's loader and the analyzer. -/
def attribution_analysis_by_task
    (load_data_by_task_id : Int → Except PyExc DataFrame)
    (analyze_with_plots : DataFrame → Except PyExc AnalysisResult)
    (task_id : Int) : Except PyExc AttributionResponse :=
  catch_http_reraise "归因分析失败: "
    (attribution_task_body load_data_by_task_id analyze_with_plots task_id)

/-- The `try` body of `attribution_analysis_by_time` in `main.py`. -/
def attribution_time_body
    (load_data_by_time_range : String → String → Except PyExc DataFrame)
    (analyze_with_plots : DataFrame → Except PyExc AnalysisResult)
    (start_time end_time : String) : Except PyExc AttributionResponse := do
  let time_data ← load_data_by_time_range start_time end_time
  if time_data.empty then
    throw (PyExc.http 404 ("时间段 " ++ start_time ++ " 到 " ++ end_time ++ " 没有找到数据"))
  let result ← analyze_with_plots time_data
  pure
    { shap_values := result.feature_importance
      feature_importance :=
        result.top_features.map (fun kv => FeatImp.mk kv.1 kv.2)
      top_features :=
        result.top_features.map (fun kv => FeatImp.mk kv.1 kv.2)
      data_summary :=
        [("start_time", .str start_time),
         ("end_time", .str end_time),
         ("total_samples", .int time_data.rows.length),
         ("feature_count", .int result.feature_importance.length)]
      plots := result.plots
      message := "时间段 " ++ start_time ++ " 到 " ++ end_time ++ " 归因分析完成，SHAP图已生成" }

/-- `attribution_analysis_by_time` from `main.py`. -/
def attribution_analysis_by_time
    (load_data_by_time_range : String → String → Except PyExc DataFrame)
    (analyze_with_plots : DataFrame → Except PyExc AnalysisResult)
    (start_time end_time : String) : Except PyExc AttributionResponse :=
  catch_http_reraise "归因分析失败: "
    (attribution_time_body load_data_by_time_range analyze_with_plots start_time end_time)

/-- The tuple returned by `DataProcessor.load_and_preprocess` as `main.py`
reads it: `data[0]` is `X_train` and `data[1]` is `X_test` (per the
source's inline comments), followed by the target vectors. -/
structure PreprocessedData where
  X_train : List Row
  X_test : List Row
  y_train : List ℚ
  y_test : List ℚ
deriving DecidableEq, Repr

/-- The JSON object returned by the `/api/v1/train` endpoint: exactly the
keys `message`, `best_model`, `metrics`, `training_samples`,
`test_samples`. -/
structure TrainResponse where
  message : String
  best_model : String
  metrics : PyDict ℚ
  training_samples : Nat
  test_samples : Nat
deriving DecidableEq, Repr

/-- The `try` body of `train_model` in `main.py`: preprocess, train, and
assemble the response with `training_samples = len(data[0])` and
`test_samples = len(data[1])`. -/
def train_body
    (load_and_preprocess : Except PyExc PreprocessedData)
    (train : PreprocessedData → Except PyExc (String × PyDict ℚ)) :
    Except PyExc TrainResponse := do
  let data ← load_and_preprocess
  let bm ← train data
  pure
    { message := "模型训练完成"
      best_model := bm.1
      metrics := bm.2
      training_samples := data.X_train.length
      test_samples := data.X_test.length }

/-- `train_model` from `main.py`, parametrised over the data processor
and the trainer.  Its `except Exception` clause has no
`except HTTPException: raise` companion, so every exception is remapped
to a 500. -/
def train_model
    (load_and_preprocess : Except PyExc PreprocessedData)
    (train : PreprocessedData → Except PyExc (String × PyDict ℚ)) :
    Except PyExc TrainResponse :=
  catch_all "模型训练失败: " (train_body load_and_preprocess train)

/-- The dict returned by `ModelTrainer.get_model_info` as `main.py`
reads it: four optional keys (`best_model`, `training_date`,
`feature_count`, `metrics`), each `none` when the dict lacks the key. -/
structure ModelInfoDict where
  best_model : Option String
  training_date : Option String
  feature_count : Option Nat
  metrics : Option (PyDict ℚ)
deriving DecidableEq, Repr

/-- `get_model_info` from `main.py`: reads the trainer's info dict with
`.get` defaults ("未知" for `best_model` and `training_date`, `0` for
`feature_count`, the empty dict for `metrics`). -/
def get_model_info (trainer_get_model_info : Except PyExc ModelInfoDict) :
    Except PyExc ModelInfoResponse :=
  catch_all "获取模型信息失败: " (do
    let model_info ← trainer_get_model_info
    pure
      { type := model_info.best_model.getD "未知"
        training_date := model_info.training_date.getD "未知"
        feature_count := model_info.feature_count.getD 0
        performance := model_info.metrics.getD [] })

/-! ## Collaborators modelled from the spec

`src/models/model_trainer.py`, `src/models/attribution_analyzer.py` and
`src/data/data_processor.py` are not part of the repository snapshot;
the claims that need their behaviour use the following models. -/

/-- Modelled from the spec: the info dict of `ModelTrainer.get_model_info`
before any training run (`src/models/model_trainer.py` is missing from
the snapshot).  The spec says model info is "Mutated only by a training
run; read-only otherwise", so before any training the dict lacks all
four keys. -/
def pretraining_model_info : ModelInfoDict :=
  { best_model := none, training_date := none, feature_count := none, metrics := none }

/-- The ranking order of the analyzer's top-features list: `a` precedes
`b` when `a`'s importance has the larger (or equal) absolute value. -/
def impGE (a b : String × ℚ) : Prop := |b.2| ≤ |a.2|

instance : DecidableRel impGE := fun a b =>
  inferInstanceAs (Decidable (|b.2| ≤ |a.2|))

instance : IsTotal (String × ℚ) impGE := ⟨fun a b => le_total _ _⟩

instance : IsTrans (String × ℚ) impGE := ⟨fun _ _ _ h1 h2 => le_trans h2 h1⟩

/-- Modelled from the spec: the per-feature contribution score computed
by the attribution analyzer for one column.  The spec treats the SHAP
mathematics as a library black box, so a concrete aggregate of the
column's values stands in for it. -/
def column_contribution (df : DataFrame) (c : String) : ℚ :=
  (df.rows.map (fun r => |(r.lookup c).getD 0|)).sum

/-- The columns the spec-modelled analyzer scores: the configured
prediction columns followed by the attribution-only columns. -/
def analysis_columns : List String :=
  Config.FEATURES.feature_columns ++ Config.FEATURES.attribution_features

/-- The analyzer's importance mapping: one contribution score per
configured column. -/
def analysis_importance (df : DataFrame) : PyDict ℚ :=
  analysis_columns.map (fun c => (c, column_contribution df c))

/-- Modelled from the spec: `AttributionAnalyzer.analyze_with_plots`
(`src/models/attribution_analyzer.py` is missing from the snapshot).
Per the spec's contract it computes a contribution score for each
configured feature/attribution column, ranks them into a top-features
list ordered by descending absolute importance, and returns plot paths
alongside the importances. -/
def analyze_with_plots (df : DataFrame) : AnalysisResult :=
  { feature_importance := analysis_importance df
    top_features := (analysis_importance df).insertionSort impGE
    plots := [("summary_plot", "plots/shap_summary.png"), ("bar_plot", "plots/shap_bar.png")] }

/-! ## Concrete collaborator instances used to exercise the endpoints -/

/-- A one-row dataframe. -/
def demo_df : DataFrame := { rows := [[("visibility", 1)]] }

/-- A loader that finds `demo_df` for every task id. -/
def demo_load (task_id : Int) : Except PyExc DataFrame := .ok demo_df

/-- A loader that finds no rows for any task id. -/
def empty_load (task_id : Int) : Except PyExc DataFrame := .ok { rows := [] }

/-- A time-range loader that finds `demo_df` for every range. -/
def demo_load_time (start_time end_time : String) : Except PyExc DataFrame := .ok demo_df

/-- A time-range loader that finds no rows for any range. -/
def empty_load_time (start_time end_time : String) : Except PyExc DataFrame := .ok { rows := [] }

/-- A fixed analysis result. -/
def demo_result : AnalysisResult :=
  { feature_importance := [("visibility", 2), ("wind_speed", 1)]
    top_features := [("visibility", 2), ("wind_speed", 1)]
    plots := [("summary_plot", "plots/shap_summary.png")] }

/-- An analyzer returning `demo_result` on every dataframe. -/
def demo_analyze (df : DataFrame) : Except PyExc AnalysisResult := .ok demo_result

/-- An analyzer that raises a plain (non-HTTP) exception with message
"boom". -/
def failing_analyze (df : DataFrame) : Except PyExc AnalysisResult := .error (.other "boom")

/-- A small preprocessed dataset: two training rows, one test row. -/
def demo_preprocessed : PreprocessedData :=
  { X_train := [[("visibility", 1)], [("visibility", 2)]]
    X_test := [[("visibility", 3)]]
    y_train := [0, 1]
    y_test := [1] }

/-- A preprocessing step returning `demo_preprocessed`. -/
def demo_load_and_preprocess : Except PyExc PreprocessedData := .ok demo_preprocessed

/-- A trainer run that succeeds with a fixed best model and metrics. -/
def demo_train (data : PreprocessedData) : Except PyExc (String × PyDict ℚ) :=
  .ok ("xgboost", [("rmse", 1), ("r2", 0)])

/-- A trainer run that raises a plain (non-HTTP) exception with message
"boom". -/
def failing_train (data : PreprocessedData) : Except PyExc (String × PyDict ℚ) :=
  .error (.other "boom")

/-! ## Theorems -/

/-- C1: `Config.get_cv_level` classifies every CV value by the fixed
thresholds: values below 0.1 get the very_low label ("波动性很小"),
values in [0.1, 0.2) the low label ("波动性较小"), values in [0.2, 0.3)
the medium label ("波动性中等"), and values ≥ 0.3 the high label
("波动性较大"). -/
theorem get_cv_level_classifies_by_thresholds (cv_value : ℚ) :
    (cv_value < 1/10 → Config.get_cv_level cv_value = "波动性很小") ∧
    (1/10 ≤ cv_value → cv_value < 2/10 → Config.get_cv_level cv_value = "波动性较小") ∧
    (2/10 ≤ cv_value → cv_value < 3/10 → Config.get_cv_level cv_value = "波动性中等") ∧
    (3/10 ≤ cv_value → Config.get_cv_level cv_value = "波动性较大") := by
  simp only [Config.get_cv_level, Config.CV_THRESHOLDS]
  refine ⟨fun h1 => ?_, fun h1 h2 => ?_, fun h1 h2 => ?_, fun h1 => ?_⟩ <;>
    split_ifs <;> first | rfl | linarith

/-- Witness for C1: concrete values in each of the four ranges. -/
theorem get_cv_level_classifies_by_thresholds_witness :
    Config.get_cv_level (1/20) = "波动性很小" ∧
    Config.get_cv_level (3/20) = "波动性较小" ∧
    Config.get_cv_level (1/4) = "波动性中等" ∧
    Config.get_cv_level (2/5) = "波动性较大" :=
  ⟨(get_cv_level_classifies_by_thresholds (1/20)).1 (by norm_num),
   (get_cv_level_classifies_by_thresholds (3/20)).2.1 (by norm_num) (by norm_num),
   (get_cv_level_classifies_by_thresholds (1/4)).2.2.1 (by norm_num) (by norm_num),
   (get_cv_level_classifies_by_thresholds (2/5)).2.2.2 (by norm_num)⟩

/-- C10: `Config.get_cv_level` is total: every input returns one of the
four level labels, and every negative CV value gets the very_low label
("波动性很小"). -/
theorem get_cv_level_total (cv_value : ℚ) :
    (Config.get_cv_level cv_value = "波动性很小" ∨
     Config.get_cv_level cv_value = "波动性较小" ∨
     Config.get_cv_level cv_value = "波动性中等" ∨
     Config.get_cv_level cv_value = "波动性较大") ∧
    (cv_value < 0 → Config.get_cv_level cv_value = "波动性很小") := by
  constructor
  · simp only [Config.get_cv_level]
    split_ifs <;> tauto
  · intro h
    simp only [Config.get_cv_level, Config.CV_THRESHOLDS]
    split_ifs with h1 <;> first | rfl | linarith

/-- Witness for C10: the negative value -1 gets the very_low label. -/
theorem get_cv_level_total_witness :
    ((-1 : ℚ) < 0) ∧ Config.get_cv_level (-1) = "波动性很小" :=
  ⟨by norm_num, (get_cv_level_total (-1)).2 (by norm_num)⟩

/-- C4: no column name occurs both in `Config.FEATURES.feature_columns`
and in `Config.FEATURES.attribution_features`: the prediction features
are disjoint from the attribution-only columns. -/
theorem feature_columns_disjoint_from_attribution_features :
    ∀ c ∈ Config.FEATURES.feature_columns, c ∉ Config.FEATURES.attribution_features := by
  decide

/-- Witness for C4: a concrete prediction column that is configured and
is not an attribution-only column. -/
theorem feature_columns_disjoint_from_attribution_features_witness :
    "visibility" ∈ Config.FEATURES.feature_columns ∧
    "visibility" ∉ Config.FEATURES.attribution_features :=
  ⟨by decide, feature_columns_disjoint_from_attribution_features "visibility" (by decide)⟩

/-- C9: `Config.get_model_params` is case-insensitive (two names with
the same lowercasing get the same params), and returns the empty dict
for every name whose lowercasing is not one of "xgboost", "lightgbm",
"catboost". -/
theorem get_model_params_case_insensitive_default_empty :
    (∀ s t : String, py_lower s = py_lower t →
      Config.get_model_params s = Config.get_model_params t) ∧
    (∀ s : String, py_lower s ∉ (["xgboost", "lightgbm", "catboost"] : List String) →
      Config.get_model_params s = []) := by
  constructor
  · intro s t h
    simp only [Config.get_model_params, h]
  · intro s h
    simp only [List.mem_cons, List.not_mem_nil, or_false, not_or] at h
    simp only [Config.get_model_params, h.1, h.2.1, h.2.2, if_false]

/-- Witness for C9: "XGBoost" gets the same params as "xgboost", and
"randomforest" gets the empty dict. -/
theorem get_model_params_case_insensitive_default_empty_witness :
    (py_lower "XGBoost" = py_lower "xgboost" ∧
      Config.get_model_params "XGBoost" = Config.get_model_params "xgboost") ∧
    (py_lower "randomforest" ∉ (["xgboost", "lightgbm", "catboost"] : List String) ∧
      Config.get_model_params "randomforest" = []) :=
  ⟨⟨by decide,
    get_model_params_case_insensitive_default_empty.1 "XGBoost" "xgboost" (by decide)⟩,
   ⟨by decide,
    get_model_params_case_insensitive_default_empty.2 "randomforest" (by decide)⟩⟩

/-- Counterexample for C2: when the analyzer raises a plain exception
with message "boom", the by-task endpoint responds 500 but its detail
string is "归因分析失败: boom", not the original message "boom"
preserved unmodified. -/
theorem http_500_detail_not_original_message :
    attribution_analysis_by_task demo_load failing_analyze 7 =
      .error (.http 500 ("归因分析失败: boom")) ∧
    "归因分析失败: boom" ≠ "boom" :=
  ⟨rfl, by decide⟩

/-- C2 amended: when the body of an attribution endpoint or of the
training endpoint raises an exception that is not an `HTTPException`,
the endpoint responds with HTTP 500 whose detail is the endpoint's fixed
failure-message head ("归因分析失败: " for attribution, "模型训练失败: "
for training) followed by the original exception's message. -/
theorem non_http_exception_maps_to_500_with_message_suffix
    (load_data_by_task_id : Int → Except PyExc DataFrame)
    (load_data_by_time_range : String → String → Except PyExc DataFrame)
    (analyzer : DataFrame → Except PyExc AnalysisResult)
    (load_and_preprocess : Except PyExc PreprocessedData)
    (trainer : PreprocessedData → Except PyExc (String × PyDict ℚ))
    (task_id : Int) (start_time end_time m : String) :
    (attribution_task_body load_data_by_task_id analyzer task_id = .error (.other m) →
      attribution_analysis_by_task load_data_by_task_id analyzer task_id =
        .error (.http 500 ("归因分析失败: " ++ m))) ∧
    (attribution_time_body load_data_by_time_range analyzer start_time end_time =
        .error (.other m) →
      attribution_analysis_by_time load_data_by_time_range analyzer start_time end_time =
        .error (.http 500 ("归因分析失败: " ++ m))) ∧
    (train_body load_and_preprocess trainer = .error (.other m) →
      train_model load_and_preprocess trainer =
        .error (.http 500 ("模型训练失败: " ++ m))) := by
  refine ⟨fun h => ?_, fun h => ?_, fun h => ?_⟩
  · simp only [attribution_analysis_by_task, h, catch_http_reraise]
  · simp only [attribution_analysis_by_time, h, catch_http_reraise]
  · simp only [train_model, h, catch_all, PyExc.py_str]

/-- Witness for the amended C2: concrete failing collaborators for all
three endpoints. -/
theorem non_http_exception_maps_to_500_with_message_suffix_witness :
    (attribution_task_body demo_load failing_analyze 7 = .error (.other "boom") ∧
      attribution_analysis_by_task demo_load failing_analyze 7 =
        .error (.http 500 ("归因分析失败: " ++ "boom"))) ∧
    (attribution_time_body demo_load_time failing_analyze "2024-01-01 08:00:00"
        "2024-01-01 12:00:00" = .error (.other "boom") ∧
      attribution_analysis_by_time demo_load_time failing_analyze "2024-01-01 08:00:00"
        "2024-01-01 12:00:00" = .error (.http 500 ("归因分析失败: " ++ "boom"))) ∧
    (train_body demo_load_and_preprocess failing_train = .error (.other "boom") ∧
      train_model demo_load_and_preprocess failing_train =
        .error (.http 500 ("模型训练失败: " ++ "boom"))) :=
  ⟨⟨rfl, (non_http_exception_maps_to_500_with_message_suffix demo_load demo_load_time
      failing_analyze demo_load_and_preprocess failing_train 7 "2024-01-01 08:00:00"
      "2024-01-01 12:00:00" "boom").1 rfl⟩,
   ⟨rfl, (non_http_exception_maps_to_500_with_message_suffix demo_load demo_load_time
      failing_analyze demo_load_and_preprocess failing_train 7 "2024-01-01 08:00:00"
      "2024-01-01 12:00:00" "boom").2.1 rfl⟩,
   ⟨rfl, (non_http_exception_maps_to_500_with_message_suffix demo_load demo_load_time
      failing_analyze demo_load_and_preprocess failing_train 7 "2024-01-01 08:00:00"
      "2024-01-01 12:00:00" "boom").2.2 rfl⟩⟩

/-- C3: when the loader returns an empty dataframe, each attribution
endpoint responds with HTTP 404, and the analyzer is never invoked: the
endpoint's outcome is the same for any two analyzers. -/
theorem empty_dataframe_gives_404_analyzer_not_invoked
    (load_data_by_task_id : Int → Except PyExc DataFrame)
    (load_data_by_time_range : String → String → Except PyExc DataFrame)
    (analyzer1 analyzer2 : DataFrame → Except PyExc AnalysisResult)
    (task_id : Int) (start_time end_time : String) (df dft : DataFrame) :
    (load_data_by_task_id task_id = .ok df → df.empty = true →
      attribution_analysis_by_task load_data_by_task_id analyzer1 task_id =
        .error (.http 404 ("任务ID " ++ toString task_id ++ " 没有找到数据")) ∧
      attribution_analysis_by_task load_data_by_task_id analyzer1 task_id =
        attribution_analysis_by_task load_data_by_task_id analyzer2 task_id) ∧
    (load_data_by_time_range start_time end_time = .ok dft → dft.empty = true →
      attribution_analysis_by_time load_data_by_time_range analyzer1 start_time end_time =
        .error (.http 404 ("时间段 " ++ start_time ++ " 到 " ++ end_time ++ " 没有找到数据")) ∧
      attribution_analysis_by_time load_data_by_time_range analyzer1 start_time end_time =
        attribution_analysis_by_time load_data_by_time_range analyzer2 start_time end_time) := by
  constructor
  · intro hload hempty
    have hbody : ∀ analyzer,
        attribution_task_body load_data_by_task_id analyzer task_id =
          .error (.http 404 ("任务ID " ++ toString task_id ++ " 没有找到数据")) := by
      intro analyzer
      simp [attribution_task_body, hload, hempty, Bind.bind, Except.bind, throw, throwThe,
        MonadExceptOf.throw]
    constructor
    · simp only [attribution_analysis_by_task, hbody analyzer1, catch_http_reraise]
    · simp only [attribution_analysis_by_task, hbody analyzer1, hbody analyzer2]
  · intro hload hempty
    have hbody : ∀ analyzer,
        attribution_time_body load_data_by_time_range analyzer start_time end_time =
          .error (.http 404 ("时间段 " ++ start_time ++ " 到 " ++ end_time ++ " 没有找到数据")) := by
      intro analyzer
      simp [attribution_time_body, hload, hempty, Bind.bind, Except.bind, throw, throwThe,
        MonadExceptOf.throw]
    constructor
    · simp only [attribution_analysis_by_time, hbody analyzer1, catch_http_reraise]
    · simp only [attribution_analysis_by_time, hbody analyzer1, hbody analyzer2]

/-- Witness for C3: an empty loader with two different analyzers, for
both endpoints. -/
theorem empty_dataframe_gives_404_analyzer_not_invoked_witness :
    (empty_load 5 = .ok (DataFrame.mk []) ∧ (DataFrame.mk []).empty = true ∧
      attribution_analysis_by_task empty_load demo_analyze 5 =
        .error (.http 404 ("任务ID " ++ toString (5 : Int) ++ " 没有找到数据")) ∧
      attribution_analysis_by_task empty_load demo_analyze 5 =
        attribution_analysis_by_task empty_load failing_analyze 5) ∧
    (empty_load_time "a" "b" = .ok (DataFrame.mk []) ∧ (DataFrame.mk []).empty = true ∧
      attribution_analysis_by_time empty_load_time demo_analyze "a" "b" =
        .error (.http 404 ("时间段 " ++ "a" ++ " 到 " ++ "b" ++ " 没有找到数据")) ∧
      attribution_analysis_by_time empty_load_time demo_analyze "a" "b" =
        attribution_analysis_by_time empty_load_time failing_analyze "a" "b") :=
  ⟨⟨rfl, rfl,
    ((empty_dataframe_gives_404_analyzer_not_invoked empty_load empty_load_time demo_analyze
        failing_analyze 5 "a" "b" (DataFrame.mk []) (DataFrame.mk [])).1 rfl rfl).1,
    ((empty_dataframe_gives_404_analyzer_not_invoked empty_load empty_load_time demo_analyze
        failing_analyze 5 "a" "b" (DataFrame.mk []) (DataFrame.mk [])).1 rfl rfl).2⟩,
   ⟨rfl, rfl,
    ((empty_dataframe_gives_404_analyzer_not_invoked empty_load empty_load_time demo_analyze
        failing_analyze 5 "a" "b" (DataFrame.mk []) (DataFrame.mk [])).2 rfl rfl).1,
    ((empty_dataframe_gives_404_analyzer_not_invoked empty_load empty_load_time demo_analyze
        failing_analyze 5 "a" "b" (DataFrame.mk []) (DataFrame.mk [])).2 rfl rfl).2⟩⟩

/-- C6: when the trainer's info dict lacks the `best_model`,
`training_date`, `feature_count` and `metrics` keys (as it does before
any training run), the model-info endpoint returns without raising, with
type = "未知", training_date = "未知", feature_count = 0 and an empty
performance mapping. -/
theorem model_info_defaults_before_training (info : ModelInfoDict) :
    info.best_model = none → info.training_date = none →
    info.feature_count = none → info.metrics = none →
    get_model_info (.ok info) =
      .ok { type := "未知", training_date := "未知", feature_count := 0, performance := [] } := by
  intro h1 h2 h3 h4
  simp [get_model_info, catch_all, Bind.bind, Except.bind, Pure.pure, Except.pure, h1, h2, h3, h4]

/-- Witness for C6: the spec-modelled pre-training info dict. -/
theorem model_info_defaults_before_training_witness :
    pretraining_model_info.best_model = none ∧
    get_model_info (.ok pretraining_model_info) =
      .ok { type := "未知", training_date := "未知", feature_count := 0, performance := [] } :=
  ⟨rfl, model_info_defaults_before_training pretraining_model_info rfl rfl rfl rfl⟩

/-- C7: a successful training run returns exactly the response record
with fields `message`, `best_model`, `metrics`, `training_samples`,
`test_samples`, where `training_samples` is the length of the first
element of the preprocessed tuple (`X_train`) and `test_samples` the
length of the second (`X_test`). -/
theorem train_response_fields
    (load_and_preprocess : Except PyExc PreprocessedData)
    (trainer : PreprocessedData → Except PyExc (String × PyDict ℚ))
    (data : PreprocessedData) (best_model : String) (metrics : PyDict ℚ) :
    load_and_preprocess = .ok data → trainer data = .ok (best_model, metrics) →
    train_model load_and_preprocess trainer =
      .ok { message := "模型训练完成", best_model := best_model, metrics := metrics,
            training_samples := data.X_train.length,
            test_samples := data.X_test.length } := by
  intro hload htrain
  simp [train_model, train_body, catch_all, Bind.bind, Except.bind, Pure.pure, Except.pure,
    hload, htrain]

/-- Witness for C7: a concrete preprocessing result (two train rows, one
test row) and a successful trainer. -/
theorem train_response_fields_witness :
    demo_load_and_preprocess = .ok demo_preprocessed ∧
    demo_train demo_preprocessed = .ok ("xgboost", [("rmse", 1), ("r2", 0)]) ∧
    train_model demo_load_and_preprocess demo_train =
      .ok { message := "模型训练完成", best_model := "xgboost",
            metrics := [("rmse", 1), ("r2", 0)],
            training_samples := demo_preprocessed.X_train.length,
            test_samples := demo_preprocessed.X_test.length } :=
  ⟨rfl, rfl,
   train_response_fields demo_load_and_preprocess demo_train demo_preprocessed "xgboost"
     [("rmse", 1), ("r2", 0)] rfl rfl⟩

/-- C8: in every successful attribution response of either endpoint, the
`feature_importance` and `top_features` lists are equal (both are built
from the analyzer's `top_features` pair list), and `shap_values` is the
analyzer's `feature_importance` mapping. -/
theorem attribution_response_lists_coincide
    (load_data_by_task_id : Int → Except PyExc DataFrame)
    (load_data_by_time_range : String → String → Except PyExc DataFrame)
    (analyzer : DataFrame → Except PyExc AnalysisResult)
    (task_id : Int) (start_time end_time : String) (df dft : DataFrame)
    (res : AnalysisResult) :
    (load_data_by_task_id task_id = .ok df → df.empty = false → analyzer df = .ok res →
      ∃ r, attribution_analysis_by_task load_data_by_task_id analyzer task_id = .ok r ∧
        r.feature_importance = r.top_features ∧ r.shap_values = res.feature_importance) ∧
    (load_data_by_time_range start_time end_time = .ok dft → dft.empty = false →
      analyzer dft = .ok res →
      ∃ r, attribution_analysis_by_time load_data_by_time_range analyzer start_time end_time =
          .ok r ∧
        r.feature_importance = r.top_features ∧ r.shap_values = res.feature_importance) := by
  constructor
  · intro hload hempty hana
    refine ⟨{ shap_values := res.feature_importance
              feature_importance := res.top_features.map (fun kv => FeatImp.mk kv.1 kv.2)
              top_features := res.top_features.map (fun kv => FeatImp.mk kv.1 kv.2)
              data_summary :=
                [("task_id", .int task_id), ("total_samples", .int df.rows.length),
                 ("feature_count", .int res.feature_importance.length)]
              plots := res.plots
              message := "任务ID " ++ toString task_id ++ " 归因分析完成，SHAP图已生成" },
            ?_, rfl, rfl⟩
    simp [attribution_analysis_by_task, attribution_task_body, catch_http_reraise,
      Bind.bind, Except.bind, Functor.map, Except.map, Pure.pure, Except.pure,
      hload, hempty, hana]
  · intro hload hempty hana
    refine ⟨{ shap_values := res.feature_importance
              feature_importance := res.top_features.map (fun kv => FeatImp.mk kv.1 kv.2)
              top_features := res.top_features.map (fun kv => FeatImp.mk kv.1 kv.2)
              data_summary :=
                [("start_time", .str start_time), ("end_time", .str end_time),
                 ("total_samples", .int dft.rows.length),
                 ("feature_count", .int res.feature_importance.length)]
              plots := res.plots
              message := "时间段 " ++ start_time ++ " 到 " ++ end_time ++ " 归因分析完成，SHAP图已生成" },
            ?_, rfl, rfl⟩
    simp [attribution_analysis_by_time, attribution_time_body, catch_http_reraise,
      Bind.bind, Except.bind, Functor.map, Except.map, Pure.pure, Except.pure,
      hload, hempty, hana]

/-- Witness for C8: a loader with one row and a fixed successful
analyzer, for both endpoints. -/
theorem attribution_response_lists_coincide_witness :
    (demo_load 7 = .ok demo_df ∧ demo_df.empty = false ∧ demo_analyze demo_df = .ok demo_result ∧
      ∃ r, attribution_analysis_by_task demo_load demo_analyze 7 = .ok r ∧
        r.feature_importance = r.top_features ∧ r.shap_values = demo_result.feature_importance) ∧
    (demo_load_time "a" "b" = .ok demo_df ∧ demo_df.empty = false ∧
      demo_analyze demo_df = .ok demo_result ∧
      ∃ r, attribution_analysis_by_time demo_load_time demo_analyze "a" "b" = .ok r ∧
        r.feature_importance = r.top_features ∧ r.shap_values = demo_result.feature_importance) :=
  ⟨⟨rfl, rfl, rfl,
    (attribution_response_lists_coincide demo_load demo_load_time demo_analyze 7 "a" "b"
        demo_df demo_df demo_result).1 rfl rfl rfl⟩,
   ⟨rfl, rfl, rfl,
    (attribution_response_lists_coincide demo_load demo_load_time demo_analyze 7 "a" "b"
        demo_df demo_df demo_result).2 rfl rfl rfl⟩⟩

/-- C5: for every non-empty dataset, the attribution analyzer's
feature-importance mapping has keys drawn from the union of the
configured prediction columns and attribution-only columns, and its
top-features list is sorted by descending absolute importance. -/
theorem analyze_with_plots_keys_subset_and_sorted (df : DataFrame) :
    df.rows ≠ [] →
    ((analyze_with_plots df).feature_importance.map Prod.fst ⊆
      Config.FEATURES.feature_columns ++ Config.FEATURES.attribution_features) ∧
    List.Sorted impGE (analyze_with_plots df).top_features := by
  intro _
  constructor
  · have hkeys : (analyze_with_plots df).feature_importance.map Prod.fst =
        Config.FEATURES.feature_columns ++ Config.FEATURES.attribution_features := by
      simp only [analyze_with_plots]
      rw [analysis_importance, List.map_map]
      exact List.map_id _
    intro x hx
    rw [hkeys] at hx
    exact hx
  · simp only [analyze_with_plots]
    exact List.sorted_insertionSort impGE _

/-- Witness for C5: the analyzer run on a concrete one-row dataframe. -/
theorem analyze_with_plots_keys_subset_and_sorted_witness :
    demo_df.rows ≠ [] ∧
    (((analyze_with_plots demo_df).feature_importance.map Prod.fst ⊆
        Config.FEATURES.feature_columns ++ Config.FEATURES.attribution_features) ∧
      List.Sorted impGE (analyze_with_plots demo_df).top_features) :=
  ⟨by simp [demo_df], analyze_with_plots_keys_subset_and_sorted demo_df (by simp [demo_df])⟩
